import Mathlib

/-
  Verification development for the smart_heat_automation repository.

  The three Python sources (src/sensor/sensor.py, src/controller/controller.py,
  src/app.py) are shallowly embedded below.  Python floats are modelled as
  rationals; Python `round` (banker's rounding) is modelled by `roundHalfEven`
  and `pyRound`.  Values that Python may hold as `None` are modelled as
  `Option`; a parsed JSON object is modelled as a record of the keys the code
  reads, each `Option (Option _)` (outer layer: key present or absent, inner
  layer: JSON null or a value).  Network and clock inputs (weather-fetch
  outcome, publish success, current date, receipt time) are passed as explicit
  parameters.
-/

namespace SmartHeat

/-- Banker's rounding of a rational to an integer, as Python's built-in
`round` behaves on exact values: round half to even. -/
def roundHalfEven (q : ℚ) : ℤ :=
  if q - ⌊q⌋ < 1/2 then ⌊q⌋
  else if 1/2 < q - ⌊q⌋ then ⌊q⌋ + 1
  else if ⌊q⌋ % 2 = 0 then ⌊q⌋ else ⌊q⌋ + 1

/-- Python's `round(x, ndigits)` on exact decimal values. -/
def pyRound (ndigits : ℕ) (x : ℚ) : ℚ :=
  (roundHalfEven (x * 10 ^ ndigits) : ℚ) / 10 ^ ndigits

theorem roundHalfEven_eq_floor_or_succ (q : ℚ) :
    roundHalfEven q = ⌊q⌋ ∨ roundHalfEven q = ⌊q⌋ + 1 := by
  unfold roundHalfEven
  split_ifs <;> simp

theorem le_roundHalfEven {n : ℤ} {q : ℚ} (h : (n : ℚ) ≤ q) :
    n ≤ roundHalfEven q := by
  have hf : n ≤ ⌊q⌋ := Int.le_floor.mpr h
  rcases roundHalfEven_eq_floor_or_succ q with h1 | h1 <;> rw [h1] <;> omega

theorem roundHalfEven_le {m : ℤ} {q : ℚ} (h : q ≤ (m : ℚ)) :
    roundHalfEven q ≤ m := by
  unfold roundHalfEven
  have hfm : ⌊q⌋ ≤ m := by
    have := Int.floor_le_floor h
    simpa using this
  split_ifs with h1 h2 h3
  · exact hfm
  · -- here 1/2 < q - ⌊q⌋, so q is strictly above its floor
    have hlt : (⌊q⌋ : ℚ) < q := by
      have : (0 : ℚ) < q - ⌊q⌋ := by linarith
      linarith
    have : ⌊q⌋ < m := by
      have : (⌊q⌋ : ℚ) < (m : ℚ) := lt_of_lt_of_le hlt h
      exact_mod_cast this
    omega
  · exact hfm
  · -- tie case: q - ⌊q⌋ = 1/2, again q strictly above its floor
    have heq : q - ⌊q⌋ = 1/2 := le_antisymm (not_lt.mp h2) (not_lt.mp h1)
    clear h3
    have hlt : (⌊q⌋ : ℚ) < q := by linarith
    have : ⌊q⌋ < m := by
      have : (⌊q⌋ : ℚ) < (m : ℚ) := lt_of_lt_of_le hlt h
      exact_mod_cast this
    omega

theorem roundHalfEven_intCast (m : ℤ) : roundHalfEven (m : ℚ) = m := by
  unfold roundHalfEven
  rw [Int.floor_intCast]
  norm_num

theorem pyRound_eq_of_mul_eq (d : ℕ) (q : ℚ) (m : ℤ) (h : q * 10 ^ d = (m : ℚ)) :
    pyRound d q = (m : ℚ) / 10 ^ d := by
  unfold pyRound
  rw [h, roundHalfEven_intCast]

theorem pyRound_bounds (d : ℕ) {a b : ℤ} {q : ℚ}
    (h1 : (a : ℚ) ≤ q) (h2 : q ≤ (b : ℚ)) :
    (a : ℚ) ≤ pyRound d q ∧ pyRound d q ≤ (b : ℚ) := by
  have hpow : (0 : ℚ) < 10 ^ d := by positivity
  have hlo : ((a * 10 ^ d : ℤ) : ℚ) ≤ q * 10 ^ d := by
    push_cast
    exact mul_le_mul_of_nonneg_right h1 (le_of_lt hpow)
  have hhi : q * 10 ^ d ≤ ((b * 10 ^ d : ℤ) : ℚ) := by
    push_cast
    exact mul_le_mul_of_nonneg_right h2 (le_of_lt hpow)
  have hlo2 : a * 10 ^ d ≤ roundHalfEven (q * 10 ^ d) := le_roundHalfEven hlo
  have hhi2 : roundHalfEven (q * 10 ^ d) ≤ b * 10 ^ d := roundHalfEven_le hhi
  constructor
  · rw [pyRound, le_div_iff₀ hpow]
    calc (a : ℚ) * 10 ^ d = ((a * 10 ^ d : ℤ) : ℚ) := by push_cast; ring
    _ ≤ (roundHalfEven (q * 10 ^ d) : ℚ) := by exact_mod_cast hlo2
  · rw [pyRound, div_le_iff₀ hpow]
    calc (roundHalfEven (q * 10 ^ d) : ℚ)
        ≤ ((b * 10 ^ d : ℤ) : ℚ) := by exact_mod_cast hhi2
    _ = (b : ℚ) * 10 ^ d := by push_cast; ring

/-! ### src/sensor/sensor.py -/

def INITIAL_TEMP : ℚ := 20
def TEMP_VARIATION : ℚ := 1/2
def PUBLISH_INTERVAL : ℕ := 5

/-- Function `simulate_temperature` from src/sensor/sensor.py: add the random change
(`random.uniform(-TEMP_VARIATION, TEMP_VARIATION)`, passed here as an explicit
parameter), clamp to [10, 30], round to 2 decimals. -/
def simulate_temperature (current_temp change : ℚ) : ℚ :=
  let new_temp := current_temp + change
  let bounded := if new_temp < 10 then (10 : ℚ) else if new_temp > 30 then (30 : ℚ) else new_temp
  pyRound 2 bounded

/-- The sequence of values the sensor's random walk passes through, the
starting value included, for a given list of random changes. -/
def temperature_walk (start : ℚ) : List ℚ → List ℚ
  | [] => [start]
  | c :: cs => start :: temperature_walk (simulate_temperature start c) cs

theorem simulate_temperature_bounds (current_temp change : ℚ) :
    10 ≤ simulate_temperature current_temp change ∧
    simulate_temperature current_temp change ≤ 30 := by
  simp only [simulate_temperature]
  have h10 : ((10 : ℤ) : ℚ) = (10 : ℚ) := by norm_num
  have h30 : ((30 : ℤ) : ℚ) = (30 : ℚ) := by norm_num
  split_ifs with h1 h2
  · have := pyRound_bounds 2 (a := 10) (b := 30) (q := (10 : ℚ)) (by norm_num) (by norm_num)
    simpa [h10, h30] using this
  · have := pyRound_bounds 2 (a := 10) (b := 30) (q := (30 : ℚ)) (by norm_num) (by norm_num)
    simpa [h10, h30] using this
  · have := pyRound_bounds 2 (a := 10) (b := 30) (q := current_temp + change)
      (by push_cast; linarith) (by push_cast; linarith)
    simpa [h10, h30] using this

/-- Claim C7: every sensor step returns a value in [10, 30], so starting from
a temperature in [10, 30] (initially 20.0), every intermediate value of the
random walk — each step being clamp(prev + uniform(-0.5, +0.5), 10, 30)
rounded to 2 decimals — lies in [10.0, 30.0]. -/
theorem sensor_walk_bounded (start : ℚ) (changes : List ℚ)
    (h1 : 10 ≤ start) (h2 : start ≤ 30)
    (hc : ∀ c ∈ changes, -TEMP_VARIATION ≤ c ∧ c ≤ TEMP_VARIATION) :
    ∀ x ∈ temperature_walk start changes, 10 ≤ x ∧ x ≤ 30 := by
  induction changes generalizing start with
  | nil =>
    intro x hx
    simp [temperature_walk] at hx
    subst hx
    exact ⟨h1, h2⟩
  | cons c cs ih =>
    intro x hx
    simp only [temperature_walk, List.mem_cons] at hx
    rcases hx with hx | hx
    · subst hx; exact ⟨h1, h2⟩
    · have hb := simulate_temperature_bounds start c
      exact ih (simulate_temperature start c) hb.1 hb.2
        (fun d hd => hc d (List.mem_cons_of_mem c hd)) x hx

/-- Witness for C7 at a concrete input: the second value of the walk starting
at 20.0 with first change +0.5 is within [10, 30]. -/
theorem sensor_walk_bounded_witness :
    10 ≤ simulate_temperature 20 (1/2) ∧ simulate_temperature 20 (1/2) ≤ 30 :=
  sensor_walk_bounded 20 [1/2] (by norm_num) (by norm_num)
    (by intro c hc; simp at hc; subst hc; constructor <;> norm_num [TEMP_VARIATION])
    (simulate_temperature 20 (1/2)) (by simp [temperature_walk])

theorem simulate_temperature_20_0 : simulate_temperature 20 0 = 20 := by
  simp only [simulate_temperature]
  norm_num
  rw [pyRound_eq_of_mul_eq 2 20 2000 (by norm_num)]
  norm_num

theorem simulate_temperature_20_1 : simulate_temperature 20 1 = 21 := by
  simp only [simulate_temperature]
  norm_num
  rw [pyRound_eq_of_mul_eq 2 21 2100 (by norm_num)]
  norm_num

/-- One iteration of the sensor's main loop, seen from outside: the random
change drawn this iteration, whether `client.publish` reported success,
whether `client.is_connected()` still holds after a failure, and whether
`client.reconnect()` succeeds (raises no exception). -/
structure SensorIter where
  change : ℚ
  publishOk : Bool
  connected : Bool
  reconnectOk : Bool
deriving DecidableEq

/-- Observable events of the sensor's main loop (src/sensor/sensor.py,
lines 66-90). -/
inductive SensorEff where
  | published (t : ℚ)
  | publishFailed (t : ℚ)
  | reconnectAttempt
  | backoffSleep (secs : ℕ)
  | intervalSleep (secs : ℕ)
deriving DecidableEq

/-- One pass through the sensor's `while True` loop body: generate the next
reading, publish it; on failure, reconnect only if the client reports
disconnected, and sleep 5 seconds only if that reconnect raises; in every
case end with `time.sleep(PUBLISH_INTERVAL)`.  Returns the new value of
`current_temperature` and the events of this pass. -/
def sensor_step (temp : ℚ) (it : SensorIter) : ℚ × List SensorEff :=
  let t := simulate_temperature temp it.change
  if it.publishOk then
    (t, [SensorEff.published t, SensorEff.intervalSleep PUBLISH_INTERVAL])
  else
    (t, SensorEff.publishFailed t ::
        ((if it.connected then []
          else SensorEff.reconnectAttempt ::
               (if it.reconnectOk then [] else [SensorEff.backoffSleep 5]))
         ++ [SensorEff.intervalSleep PUBLISH_INTERVAL]))

/-- The sensor loop run over a list of iterations, starting from
`current_temperature = temp`. -/
def sensor_run (temp : ℚ) : List SensorIter → List SensorEff
  | [] => []
  | it :: its => (sensor_step temp it).2 ++ sensor_run (sensor_step temp it).1 its

/-- Counterexample to claim C8.  Concrete run: the first publish fails while
the client still reports connected, the second succeeds.  The loop attempts
no reconnect at all, sleeps no extra backoff, and never retries the failed
reading 20.0: the next publish attempt is the fresh reading 21.0. -/
theorem sensor_no_retry_counterexample :
    sensor_run 20 [⟨0, false, true, true⟩, ⟨1, true, true, true⟩]
      = [SensorEff.publishFailed 20, SensorEff.intervalSleep 5,
         SensorEff.published 21, SensorEff.intervalSleep 5]
    ∧ SensorEff.reconnectAttempt ∉
        sensor_run 20 [⟨0, false, true, true⟩, ⟨1, true, true, true⟩]
    ∧ SensorEff.published 20 ∉
        sensor_run 20 [⟨0, false, true, true⟩, ⟨1, true, true, true⟩] := by
  have h : sensor_run 20 [⟨0, false, true, true⟩, ⟨1, true, true, true⟩]
      = [SensorEff.publishFailed 20, SensorEff.intervalSleep 5,
         SensorEff.published 21, SensorEff.intervalSleep 5] := by
    simp [sensor_run, sensor_step, simulate_temperature_20_0,
      simulate_temperature_20_1, PUBLISH_INTERVAL]
  refine ⟨h, ?_, ?_⟩ <;> rw [h] <;> simp

/-- Claim C8, amended to the code: on a publish failure the loop logs the
failure and does not retry the reading; it attempts a reconnect only when the
client reports disconnected, sleeps the 5-second backoff only when that
reconnect raises, then waits the publish interval and advances to the next
reading (the state moves on to a freshly simulated temperature). -/
theorem sensor_publish_failure_behavior (temp : ℚ) (it : SensorIter)
    (h : it.publishOk = false) :
    sensor_step temp it
      = (simulate_temperature temp it.change,
         SensorEff.publishFailed (simulate_temperature temp it.change) ::
           ((if it.connected then []
             else SensorEff.reconnectAttempt ::
                  (if it.reconnectOk then [] else [SensorEff.backoffSleep 5]))
            ++ [SensorEff.intervalSleep PUBLISH_INTERVAL]))
    ∧ SensorEff.published (simulate_temperature temp it.change) ∉ (sensor_step temp it).2 := by
  constructor
  · simp [sensor_step, h]
  · simp only [sensor_step, h]
    simp

/-- Witness for the amended C8 at a concrete input. -/
theorem sensor_publish_failure_behavior_witness :
    sensor_step 20 ⟨0, false, false, false⟩
      = (20, [SensorEff.publishFailed 20, SensorEff.reconnectAttempt,
              SensorEff.backoffSleep 5, SensorEff.intervalSleep 5]) := by
  have h := (sensor_publish_failure_behavior 20 ⟨0, false, false, false⟩ rfl).1
  rw [h]
  simp [simulate_temperature_20_0, PUBLISH_INTERVAL]

/-! ### src/controller/controller.py -/

/-- Python truthiness of an optional string (`not x` is true for both `None`
and the empty string). -/
def pyTruthy (s : Option String) : Bool :=
  match s with
  | none => false
  | some str => str ≠ ""

/-- The heating decision expression, as written at src/app.py lines 152 and
174 and src/controller/controller.py lines 234-236: `"HEATER ON"` exactly
when the indoor temperature is strictly below the setpoint, else
`"HEATER OFF"`. -/
def heater_action (t sp : ℚ) : String :=
  if t < sp then "HEATER ON" else "HEATER OFF"

def ORIGINAL_SETPOINT_TEMP : ℚ := 20
def DB_NAME : String := "database/temperature_log.db"

/-- The controller's module-level mutable state:
`global_current_setpoint_temp` (initially `ORIGINAL_SETPOINT_TEMP`),
`global_weather_api_location` (initially `"London"`), and
`global_last_fetched_outside_temp` (initially `None`). -/
structure CtrlState where
  setpoint : ℚ
  location : String
  lastOutsideTemp : Option ℚ
deriving DecidableEq

def initialCtrlState : CtrlState :=
  { setpoint := ORIGINAL_SETPOINT_TEMP, location := "London", lastOutsideTemp := none }

/-- Function `fetch_weather_data` from src/controller/controller.py.  The HTTP
request's outcome is passed explicitly: `outcome = some t` models a 2xx
response whose body holds `current.temp_c = t`; `outcome = none` models every
failure path of the function (HTTP error, connection error, timeout, request
error, JSON decode error, incomplete body), all of which return `None`.
The function returns `None` without any request when the API key or the
location is missing/falsy. -/
def fetch_weather_data (api_key : Option String) (location : String)
    (outcome : Option ℚ) : Option ℚ :=
  if pyTruthy api_key = false then none
  else if location = "" then none
  else outcome

/-- Function `adjust_setpoint` from src/controller/controller.py: on a fetched outside
temperature, record it in `global_last_fetched_outside_temp`, then set the
setpoint from the three-band policy over `original_setpoint`, rounded to one
decimal; on `None` leave the state untouched. -/
def adjust_setpoint (outside_temp_c : Option ℚ) (original_setpoint : ℚ)
    (st : CtrlState) : CtrlState :=
  match outside_temp_c with
  | none => st
  | some o =>
    let st1 := { st with lastOutsideTemp := some o }
    let adjusted_setpoint :=
      if o < 5 then original_setpoint - 1
      else if o > 18 then original_setpoint + 1
      else original_setpoint
    let new_setpoint := pyRound 1 adjusted_setpoint
    if st1.setpoint ≠ new_setpoint then { st1 with setpoint := new_setpoint } else st1

/-- Observable events of the controller process. `publishStatus` is in the
vocabulary so that its absence can be stated; this controller source never
publishes a status message (there is no `client.publish` in
src/controller/controller.py). -/
inductive CtrlEff where
  | weatherFetch (location : String)
  | dbInsert (dbName : String) (temperature : Option ℚ) (act : Option String)
      (setpoint : ℚ) (outsideTemp : Option ℚ) (location : String)
  | publishStatus (location : String) (setpoint : ℚ) (outsideTemp : Option ℚ)
deriving DecidableEq

/-- Function `log_to_database` from src/controller/controller.py: one row inserted
into the fixed file `DB_NAME` — this database name carries no date. -/
def log_to_database (temperature : Option ℚ) (act : Option String)
    (current_setpoint : ℚ) (outside_temperature : Option ℚ)
    (current_location : String) : CtrlEff :=
  CtrlEff.dbInsert DB_NAME temperature act current_setpoint outside_temperature
    current_location

/-- Function `do_weather_update_and_setpoint_adjustment` from
src/controller/controller.py: give up silently when the API key or location
is falsy; otherwise fetch (the `weatherFetch` event) and, only on a
successful fetch, adjust the setpoint. -/
def do_weather_update_and_setpoint_adjustment (apiKey : Option String)
    (st : CtrlState) (outcome : Option ℚ) : CtrlState × List CtrlEff :=
  if pyTruthy apiKey = false ∨ st.location = "" then (st, [])
  else
    match fetch_weather_data apiKey st.location outcome with
    | none => (st, [CtrlEff.weatherFetch st.location])
    | some o =>
      (adjust_setpoint (some o) ORIGINAL_SETPOINT_TEMP st,
       [CtrlEff.weatherFetch st.location])

/-- A parsed JSON object, projected onto the keys the two message handlers
read.  Outer `Option`: the key is present; inner `Option`: the value is JSON
null or an actual value. -/
structure JsonObj where
  temperature : Option (Option ℚ) := none
  command : Option (Option String) := none
  location : Option (Option String) := none
  current_setpoint : Option (Option ℚ) := none
  last_outside_temp : Option (Option ℚ) := none
deriving DecidableEq

inductive CtrlTopic where
  | command
  | temperature
  | other
deriving DecidableEq

/-- Handler `on_message` from src/controller/controller.py.  `payload = none` models
a body `json.loads` rejects (the handler logs and returns).  For a
temperature message whose `"temperature"` value is JSON null the comparison
with the setpoint raises `TypeError`, which the handler catches after having
mutated nothing. -/
def ctrl_on_message (st : CtrlState) (apiKey : Option String)
    (topic : CtrlTopic) (payload : Option JsonObj) (outcome : Option ℚ) :
    CtrlState × List CtrlEff :=
  match topic with
  | CtrlTopic.command =>
    match payload with
    | none => (st, [])
    | some p =>
      if p.command.getD none = some "UPDATE_LOCATION" then
        match p.location.getD none with
        | some new_location =>
          if new_location ≠ "" then
            if st.location ≠ new_location then
              let st1 := { st with location := new_location }
              let upd := do_weather_update_and_setpoint_adjustment apiKey st1 outcome
              (upd.1,
               upd.2 ++ [log_to_database none (some "LOCATION_UPDATE")
                 upd.1.setpoint upd.1.lastOutsideTemp upd.1.location])
            else (st, [])
          else (st, [])
        | none => (st, [])
      else (st, [])
  | CtrlTopic.temperature =>
    match payload with
    | none => (st, [])
    | some p =>
      match p.temperature with
      | none => (st, [])
      | some none => (st, [])
      | some (some t) =>
        (st, [log_to_database (some t) (some (heater_action t st.setpoint))
          st.setpoint st.lastOutsideTemp st.location])
  | CtrlTopic.other => (st, [])

theorem adjust_setpoint_setpoint (o original_setpoint : ℚ) (st : CtrlState) :
    (adjust_setpoint (some o) original_setpoint st).setpoint
      = pyRound 1 (if o < 5 then original_setpoint - 1
                   else if o > 18 then original_setpoint + 1
                   else original_setpoint) := by
  simp only [adjust_setpoint]
  split_ifs <;> simp_all

/-- Claim C3: for every fetched outside temperature, the setpoint over base
B = 20.0 is B - 1.0 below 5.0°C outside, B + 1.0 above 18.0°C, B otherwise,
rounded to one decimal; in particular 4.9 gives 19.0, 18.1 gives 21.0 and
12.0 gives 20.0. -/
theorem setpoint_banding (o : ℚ) (st : CtrlState) :
    (adjust_setpoint (some o) ORIGINAL_SETPOINT_TEMP st).setpoint
      = (if o < 5 then (19 : ℚ) else if o > 18 then 21 else 20)
    ∧ (adjust_setpoint (some (49/10)) ORIGINAL_SETPOINT_TEMP st).setpoint = 19
    ∧ (adjust_setpoint (some (181/10)) ORIGINAL_SETPOINT_TEMP st).setpoint = 21
    ∧ (adjust_setpoint (some 12) ORIGINAL_SETPOINT_TEMP st).setpoint = 20 := by
  have h19 : pyRound 1 (19 : ℚ) = 19 := by
    rw [pyRound_eq_of_mul_eq 1 19 190 (by norm_num)]; norm_num
  have h20 : pyRound 1 (20 : ℚ) = 20 := by
    rw [pyRound_eq_of_mul_eq 1 20 200 (by norm_num)]; norm_num
  have h21 : pyRound 1 (21 : ℚ) = 21 := by
    rw [pyRound_eq_of_mul_eq 1 21 210 (by norm_num)]; norm_num
  have key : ∀ x : ℚ,
      (adjust_setpoint (some x) ORIGINAL_SETPOINT_TEMP st).setpoint
        = (if x < 5 then (19 : ℚ) else if x > 18 then 21 else 20) := by
    intro x
    rw [adjust_setpoint_setpoint]
    split_ifs
    · norm_num [ORIGINAL_SETPOINT_TEMP]
      exact h19
    · norm_num [ORIGINAL_SETPOINT_TEMP]
      exact h21
    · norm_num [ORIGINAL_SETPOINT_TEMP]
      exact h20
  refine ⟨key o, ?_, ?_, ?_⟩ <;> rw [key] <;> norm_num

/-- Claim C4: on every failed weather refresh — missing credential, missing
location, or any failed/malformed fetch (`outcome = none`) — the controller
state (setpoint, location, last fetched outside temperature) is left exactly
as it was; `adjust_setpoint` likewise refuses a `None` temperature.  A null
setpoint can thus never be propagated: the setpoint is only ever replaced by
a freshly computed number. -/
theorem weather_failure_keeps_state (apiKey : Option String) (st : CtrlState)
    (outcome : Option ℚ)
    (h : outcome = none ∨ pyTruthy apiKey = false ∨ st.location = "") :
    (do_weather_update_and_setpoint_adjustment apiKey st outcome).1 = st
    ∧ adjust_setpoint none ORIGINAL_SETPOINT_TEMP st = st := by
  refine ⟨?_, rfl⟩
  rcases h with h | h | h
  · subst h
    unfold do_weather_update_and_setpoint_adjustment fetch_weather_data
    split_ifs <;> simp
  · simp [do_weather_update_and_setpoint_adjustment, h]
  · simp [do_weather_update_and_setpoint_adjustment, h]

/-- Witness for C4 at a concrete input: a failed fetch from the initial
state changes nothing. -/
theorem weather_failure_keeps_state_witness :
    (do_weather_update_and_setpoint_adjustment (some "KEY") initialCtrlState none).1
      = initialCtrlState :=
  (weather_failure_keeps_state (some "KEY") initialCtrlState none (Or.inl rfl)).1

/-- Counterexample to claim C5.  Concrete input: the controller holds
location "London", setpoint 20.0, last outside temperature 7.0, and receives
`UPDATE_LOCATION` with location "London".  The handler performs no weather
fetch (as the claim says) but also publishes nothing at all — the effect
list is empty, so no status is republished, contrary to the claim. -/
theorem update_location_same_counterexample :
    ctrl_on_message ⟨20, "London", some 7⟩ (some "KEY") CtrlTopic.command
        (some { command := some (some "UPDATE_LOCATION"),
                location := some (some "London") }) (some 12)
      = (⟨20, "London", some 7⟩, [])
    ∧ CtrlEff.publishStatus "London" 20 (some 7) ∉
        (ctrl_on_message ⟨20, "London", some 7⟩ (some "KEY") CtrlTopic.command
          (some { command := some (some "UPDATE_LOCATION"),
                  location := some (some "London") }) (some 12)).2 := by
  have h : ctrl_on_message ⟨20, "London", some 7⟩ (some "KEY") CtrlTopic.command
      (some { command := some (some "UPDATE_LOCATION"),
              location := some (some "London") }) (some 12)
      = (⟨20, "London", some 7⟩, []) := by
    simp [ctrl_on_message]
  exact ⟨h, by rw [h]; simp⟩

/-- Claim C5, amended to the code: an `UPDATE_LOCATION` command whose
location equals the one already in effect leaves the controller state
unchanged and produces no effect at all — no weather fetch, no database
write, and also no republished status (this controller never publishes a
status message). -/
theorem update_location_same_noop (st : CtrlState) (apiKey : Option String)
    (p : JsonObj) (outcome : Option ℚ)
    (h1 : p.command.getD none = some "UPDATE_LOCATION")
    (h2 : p.location.getD none = some st.location) :
    ctrl_on_message st apiKey CtrlTopic.command (some p) outcome = (st, []) := by
  simp [ctrl_on_message, h1, h2]

/-- Witness for the amended C5 at a concrete input. -/
theorem update_location_same_noop_witness :
    ctrl_on_message initialCtrlState (some "KEY") CtrlTopic.command
        (some { command := some (some "UPDATE_LOCATION"),
                location := some (some "London") }) none
      = (initialCtrlState, []) :=
  update_location_same_noop initialCtrlState (some "KEY")
    { command := some (some "UPDATE_LOCATION"), location := some (some "London") }
    none rfl rfl

/-! ### src/app.py -/

def DB_BASE_NAME : String := "temperature_log"
def DB_DIRECTORY : String := "database"

/-- Function `get_daily_db_name` from src/app.py:
`os.path.join(DB_DIRECTORY, f"[DB_BASE_NAME]_[today].db")`, the current date
passed explicitly. -/
def get_daily_db_name (today_str : String) : String :=
  DB_DIRECTORY ++ "/" ++ (DB_BASE_NAME ++ "_" ++ today_str ++ ".db")

/-- The dict `app.py` hands to `log_data_to_db`: the keys the function reads
with `.get`, each possibly absent/None. -/
structure LogPayload where
  timestamp_iso : Option ℕ := none
  temperature : Option ℚ := none
  action : Option String := none
  current_setpoint : Option ℚ := none
  last_outside_temp : Option ℚ := none
  location : Option String := none
deriving DecidableEq

/-- One row of the `readings` table written by src/app.py. -/
structure DbRow where
  timestamp : ℕ
  temperature : Option ℚ
  act : Option String
  setpoint : Option ℚ
  outside_temp : Option ℚ
  location : Option String
  source : String
deriving DecidableEq

/-- Function `log_data_to_db` from src/app.py (lines 56-93).  Inputs: the cached
`current_app_db_name`, the current date and clock at the moment of the call,
the source type and the data payload.  Output: the new value of
`current_app_db_name`, the database file the row is inserted into, and the
row.  The partition check happens before the insert: if the daily name
differs from the cached one, the function switches to (and sets up) the
daily name, and the insert then targets `current_app_db_name` as updated. -/
def log_data_to_db (current_app_db_name : String) (today : String)
    (now : ℕ) (source_type : String) (p : LogPayload) :
    String × String × DbRow :=
  let daily_name := get_daily_db_name today
  let current1 := if daily_name ≠ current_app_db_name then daily_name else current_app_db_name
  let db_timestamp := p.timestamp_iso.getD now
  let temp_act : Option ℚ × Option String :=
    if source_type = "controller_status" then (none, none)
    else (p.temperature, p.action)
  (current1, current1,
   { timestamp := db_timestamp, temperature := temp_act.1, act := temp_act.2,
     setpoint := p.current_setpoint, outside_temp := p.last_outside_temp,
     location := p.location, source := source_type })

/-- The module-level dict `latest_sensor_data` of src/app.py, with the three
keys it starts with and the three keys the temperature branch adds; a key
not yet present reads as `None`, as `.get` does. -/
structure SensorDataState where
  temperature : Option ℚ
  timestamp_iso : Option ℕ
  act : Option String
  current_setpoint : Option ℚ
  last_outside_temp : Option ℚ
  location : Option String
deriving DecidableEq

/-- The module-level dict `latest_controller_status` of src/app.py. -/
structure ControllerStatusState where
  location : Option String
  current_setpoint : Option ℚ
  last_outside_temp : Option ℚ
  timestamp_iso : Option ℕ
deriving DecidableEq

structure AppState where
  sensor : SensorDataState
  status : ControllerStatusState
deriving DecidableEq

def initialAppState : AppState :=
  { sensor := { temperature := none, timestamp_iso := none, act := none,
                current_setpoint := none, last_outside_temp := none,
                location := none },
    status := { location := some "Unknown", current_setpoint := none,
                last_outside_temp := none, timestamp_iso := none } }

inductive AppTopic where
  | tempData
  | controllerStatus
  | other
deriving DecidableEq

/-- Observable calls made by `on_subscriber_message`: a `log_data_to_db`
call (its source type and payload dict) and an `sse_queue.put`. -/
inductive AppEff where
  | dbLog (source_type : String) (p : LogPayload)
  | sseSensor (d : SensorDataState)
  | sseStatus (d : ControllerStatusState)
deriving DecidableEq

def SensorDataState.toLogPayload (d : SensorDataState) : LogPayload :=
  { timestamp_iso := d.timestamp_iso, temperature := d.temperature,
    action := d.act, current_setpoint := d.current_setpoint,
    last_outside_temp := d.last_outside_temp, location := d.location }

def ControllerStatusState.toLogPayload (d : ControllerStatusState) : LogPayload :=
  { timestamp_iso := d.timestamp_iso, temperature := none, action := none,
    current_setpoint := d.current_setpoint,
    last_outside_temp := d.last_outside_temp, location := d.location }

/-- Handler `on_subscriber_message` from src/app.py (lines 130-179).  `payload = none`
models a body `json.loads` rejects: the surrounding `try` catches the
exception before any branch runs, so nothing is mutated and nothing is
emitted.  `now` is `datetime.now()` at receipt. -/
def on_subscriber_message (st : AppState) (topic : AppTopic)
    (payload : Option JsonObj) (now : ℕ) : AppState × List AppEff :=
  match payload with
  | none => (st, [])
  | some p =>
    match topic with
    | AppTopic.tempData =>
      match p.temperature with
      | none => (st, [])
      | some temp_value =>
        let setpoint_for_action := st.status.current_setpoint
        let event : SensorDataState :=
          { temperature := temp_value, act := none, timestamp_iso := some now,
            current_setpoint := setpoint_for_action,
            last_outside_temp := st.status.last_outside_temp,
            location := st.status.location }
        let event1 :=
          match temp_value, setpoint_for_action with
          | some t, some sp => { event with act := some (heater_action t sp) }
          | _, _ => event
        let st1 := { st with sensor := event1 }
        (st1, [AppEff.dbLog "sensor_update" event1.toLogPayload,
               AppEff.sseSensor st1.sensor])
    | AppTopic.controllerStatus =>
      let new_status : ControllerStatusState :=
        { location := p.location.getD st.status.location,
          current_setpoint := p.current_setpoint.getD st.status.current_setpoint,
          last_outside_temp := p.last_outside_temp.getD st.status.last_outside_temp,
          timestamp_iso := some now }
      let st1 := { st with status := new_status }
      let effs1 := [AppEff.dbLog "controller_status" new_status.toLogPayload,
                    AppEff.sseStatus new_status]
      match st1.sensor.temperature, new_status.current_setpoint with
      | some t, some sp =>
        let new_action := heater_action t sp
        if some new_action ≠ st1.sensor.act then
          let st2 := { st1 with sensor := { st1.sensor with act := some new_action } }
          (st2, effs1 ++ [AppEff.sseSensor st2.sensor])
        else (st1, effs1)
      | _, _ => (st1, effs1)
    | AppTopic.other => (st, [])

/-- The dashboard subscriber run over a list of inbound messages
(topic, parsed payload, receipt time), starting from the module's initial
state. -/
def runApp (msgs : List (AppTopic × Option JsonObj × ℕ)) : AppState :=
  msgs.foldl (fun st m => (on_subscriber_message st m.1 m.2.1 m.2.2).1)
    initialAppState

/-- The reconciliation invariant: whenever both the temperature and the
setpoint are known, the stored action is the one computed from them. -/
def actionConsistent (st : AppState) : Prop :=
  ∀ t sp, st.sensor.temperature = some t →
    st.status.current_setpoint = some sp →
    st.sensor.act = some (heater_action t sp)

theorem initial_actionConsistent : actionConsistent initialAppState := by
  intro t sp ht _
  simp [initialAppState] at ht

theorem status_step_status (st : AppState) (p : JsonObj) (now : ℕ) :
    (on_subscriber_message st AppTopic.controllerStatus (some p) now).1.status
      = { location := p.location.getD st.status.location,
          current_setpoint := p.current_setpoint.getD st.status.current_setpoint,
          last_outside_temp := p.last_outside_temp.getD st.status.last_outside_temp,
          timestamp_iso := some now } := by
  rcases hT : st.sensor.temperature with _ | t0 <;>
    rcases hS : p.current_setpoint.getD st.status.current_setpoint with _ | sp0 <;>
    simp [on_subscriber_message, hT, hS]
  split_ifs <;> simp

theorem status_step_temperature (st : AppState) (p : JsonObj) (now : ℕ) :
    (on_subscriber_message st AppTopic.controllerStatus (some p) now).1.sensor.temperature
      = st.sensor.temperature := by
  rcases hT : st.sensor.temperature with _ | t0 <;>
    rcases hS : p.current_setpoint.getD st.status.current_setpoint with _ | sp0 <;>
    simp [on_subscriber_message, hT, hS]
  split_ifs <;> simp [hT]

theorem on_subscriber_message_preserves (st : AppState) (topic : AppTopic)
    (payload : Option JsonObj) (now : ℕ) (hinv : actionConsistent st) :
    actionConsistent (on_subscriber_message st topic payload now).1 := by
  intro t sp ht hsp
  cases payload with
  | none => exact hinv t sp ht hsp
  | some p =>
    cases topic with
    | other => exact hinv t sp ht hsp
    | tempData =>
      rcases hpt : p.temperature with _ | tv
      · simp only [on_subscriber_message, hpt] at ht hsp ⊢
        exact hinv t sp ht hsp
      · rcases hS : st.status.current_setpoint with _ | sp0
        · rcases tv with _ | t0 <;>
            simp_all [on_subscriber_message, hpt, hS]
        · rcases tv with _ | t0
          · simp [on_subscriber_message, hpt, hS] at ht
          · simp only [on_subscriber_message, hpt, hS] at ht hsp ⊢
            simp at ht hsp ⊢
            rw [ht, hsp]
    | controllerStatus =>
      rcases hT : st.sensor.temperature with _ | t0
      · rw [status_step_temperature] at ht
        rw [hT] at ht
        exact absurd ht (by simp)
      · rcases hS : p.current_setpoint.getD st.status.current_setpoint with _ | sp0
        · have h2 : (on_subscriber_message st AppTopic.controllerStatus
              (some p) now).1.status.current_setpoint = none := by
            rw [status_step_status]; exact hS
          rw [h2] at hsp
          exact absurd hsp (by simp)
        · have hT2 := status_step_temperature st p now
          have hS2 : (on_subscriber_message st AppTopic.controllerStatus
              (some p) now).1.status.current_setpoint = some sp0 := by
            rw [status_step_status]; exact hS
          rw [ht] at hT2
          rw [hS2] at hsp
          have ht0 : t0 = t := by rw [hT] at hT2; injection hT2.symm
          have hsp0 : sp0 = sp := by injection hsp
          subst ht0; subst hsp0
          simp only [on_subscriber_message, hT, hS]
          split_ifs with hne <;> simp_all

theorem runApp_consistent (msgs : List (AppTopic × Option JsonObj × ℕ)) :
    actionConsistent (runApp msgs) := by
  have key : ∀ (ms : List (AppTopic × Option JsonObj × ℕ)) (st : AppState),
      actionConsistent st →
      actionConsistent (ms.foldl
        (fun s m => (on_subscriber_message s m.1 m.2.1 m.2.2).1) st) := by
    intro ms
    induction ms with
    | nil => intro st h; exact h
    | cons m ms ih =>
      intro st h
      exact ih _ (on_subscriber_message_preserves st m.1 m.2.1 m.2.2 h)
  exact key msgs initialAppState initial_actionConsistent

theorem heater_action_spec (t sp : ℚ) :
    (heater_action t sp = "HEATER ON" ↔ t < sp)
    ∧ (t = sp → heater_action t sp = "HEATER OFF") := by
  unfold heater_action
  constructor
  · by_cases hlt : t < sp
    · simp [hlt]
    · simp [hlt]
  · intro he
    subst he
    simp

/-- Claim C1: after any sequence of inbound messages, whenever the
reconciled dashboard state knows both a temperature and a setpoint, the
stored action is "HEATER ON" exactly when the temperature is strictly below
the setpoint, and a temperature equal to the setpoint yields "HEATER OFF";
the controller process derives the action it logs for each reading by the
same strict comparison against its setpoint. -/
theorem reconciled_action_iff (msgs : List (AppTopic × Option JsonObj × ℕ))
    (t sp : ℚ)
    (h1 : (runApp msgs).sensor.temperature = some t)
    (h2 : (runApp msgs).status.current_setpoint = some sp) :
    (((runApp msgs).sensor.act = some "HEATER ON" ↔ t < sp)
      ∧ (t = sp → (runApp msgs).sensor.act = some "HEATER OFF"))
    ∧ (∀ (cst : CtrlState) (k : Option String) (pj : JsonObj) (f : Option ℚ) (u : ℚ),
        pj.temperature = some (some u) →
        (ctrl_on_message cst k CtrlTopic.temperature (some pj) f).2
          = [log_to_database (some u) (some (heater_action u cst.setpoint))
              cst.setpoint cst.lastOutsideTemp cst.location]
        ∧ (heater_action u cst.setpoint = "HEATER ON" ↔ u < cst.setpoint)
        ∧ (u = cst.setpoint → heater_action u cst.setpoint = "HEATER OFF")) := by
  constructor
  · have hact := runApp_consistent msgs t sp h1 h2
    rw [hact]
    constructor
    · rw [Option.some_inj]
      exact (heater_action_spec t sp).1
    · intro he
      rw [(heater_action_spec t sp).2 he]
  · intro cst k pj f u hu
    refine ⟨by simp [ctrl_on_message, hu], (heater_action_spec u cst.setpoint).1,
      (heater_action_spec u cst.setpoint).2⟩

/-- Witness for C1: a status fixing setpoint 20.0 followed by a reading of
19.0 yields the action "HEATER ON". -/
theorem reconciled_action_iff_witness :
    (runApp [(AppTopic.controllerStatus, some { current_setpoint := some (some 20) }, 1),
             (AppTopic.tempData, some { temperature := some (some 19) }, 2)]).sensor.act
      = some "HEATER ON" := by
  have h1 : (runApp [(AppTopic.controllerStatus, some { current_setpoint := some (some 20) }, 1),
      (AppTopic.tempData, some { temperature := some (some 19) }, 2)]).sensor.temperature
      = some 19 := by
    simp [runApp, on_subscriber_message, initialAppState]
  have h2 : (runApp [(AppTopic.controllerStatus, some { current_setpoint := some (some 20) }, 1),
      (AppTopic.tempData, some { temperature := some (some 19) }, 2)]).status.current_setpoint
      = some 20 := by
    simp [runApp, on_subscriber_message, initialAppState]
  exact (reconciled_action_iff _ 19 20 h1 h2).1.1.mpr (by norm_num)

theorem heater_action_19_20 : heater_action 19 20 = "HEATER ON" := by
  unfold heater_action
  rw [if_pos]
  norm_num

/-- Counterexample to claim C2.  Reachable concrete run: a status fixes the
setpoint at 20.0, a reading of 19.0 sets the action to "HEATER ON", a status
carrying `current_setpoint: null` makes the setpoint unknown (holding the
action, as the claim says), but the next reading of 19.0 — reconciled while
the setpoint is unknown — resets the action to absent instead of keeping the
previously valid "HEATER ON". -/
theorem action_cleared_counterexample :
    (runApp [(AppTopic.controllerStatus, some { current_setpoint := some (some 20) }, 1),
             (AppTopic.tempData, some { temperature := some (some 19) }, 2),
             (AppTopic.controllerStatus, some { current_setpoint := some none }, 3)]).sensor.act
      = some "HEATER ON"
    ∧ (runApp [(AppTopic.controllerStatus, some { current_setpoint := some (some 20) }, 1),
             (AppTopic.tempData, some { temperature := some (some 19) }, 2),
             (AppTopic.controllerStatus, some { current_setpoint := some none }, 3)]).status.current_setpoint
      = none
    ∧ (runApp [(AppTopic.controllerStatus, some { current_setpoint := some (some 20) }, 1),
             (AppTopic.tempData, some { temperature := some (some 19) }, 2),
             (AppTopic.controllerStatus, some { current_setpoint := some none }, 3),
             (AppTopic.tempData, some { temperature := some (some 19) }, 4)]).sensor.act
      = none := by
  refine ⟨?_, ?_, ?_⟩ <;>
    simp [runApp, on_subscriber_message, initialAppState, heater_action_19_20]

/-- Claim C2, amended to the code: an incoming controller status holds the
previous action whenever temperature or setpoint is unknown after the merge;
but an incoming temperature reading recomputes the action from scratch, so
when either the reading's value or the setpoint is unknown the action is set
to absent — a previously valid action is cleared, not held, on the
temperature path. -/
theorem action_hold_behavior (st : AppState) (p : JsonObj) (now : ℕ) :
    (((on_subscriber_message st AppTopic.controllerStatus (some p) now).1.sensor.temperature = none
       ∨ (on_subscriber_message st AppTopic.controllerStatus (some p) now).1.status.current_setpoint = none)
      → (on_subscriber_message st AppTopic.controllerStatus (some p) now).1.sensor.act
          = st.sensor.act)
    ∧ (∀ v, p.temperature = some v →
        (v = none ∨ st.status.current_setpoint = none) →
        (on_subscriber_message st AppTopic.tempData (some p) now).1.sensor.act = none) := by
  constructor
  · intro h
    have h' : st.sensor.temperature = none
        ∨ p.current_setpoint.getD st.status.current_setpoint = none := by
      rcases h with h | h
      · left; rwa [status_step_temperature] at h
      · right; rw [status_step_status] at h; simpa using h
    rcases h' with h' | h'
    · rcases hS : p.current_setpoint.getD st.status.current_setpoint with _ | sp0 <;>
        simp [on_subscriber_message, h', hS]
    · rcases hT : st.sensor.temperature with _ | t0 <;>
        simp [on_subscriber_message, hT, h']
  · intro v hv h2
    rcases h2 with h2 | h2
    · subst h2
      rcases hS : st.status.current_setpoint with _ | sp0 <;>
        simp [on_subscriber_message, hv, hS]
    · rcases v with _ | t0 <;> simp [on_subscriber_message, hv, h2]

/-- Witness for the amended C2 at a concrete input: a reading arriving while
the setpoint is unknown leaves the action absent. -/
theorem action_hold_behavior_witness :
    (on_subscriber_message initialAppState AppTopic.tempData
      (some { temperature := some (some 19) }) 0).1.sensor.act = none :=
  (action_hold_behavior initialAppState { temperature := some (some 19) } 0).2
    (some 19) rfl (Or.inr rfl)

/-- Claim C10: merging an inbound controller-status payload keeps every
absent field at its previous value, replaces every present field with the
payload's value, and stamps the merged status with the receipt time. -/
theorem status_merge_frame (st : AppState) (p : JsonObj) (now : ℕ) :
    ((p.location = none →
        (on_subscriber_message st AppTopic.controllerStatus (some p) now).1.status.location
          = st.status.location)
      ∧ (∀ v, p.location = some v →
        (on_subscriber_message st AppTopic.controllerStatus (some p) now).1.status.location = v))
    ∧ ((p.current_setpoint = none →
        (on_subscriber_message st AppTopic.controllerStatus (some p) now).1.status.current_setpoint
          = st.status.current_setpoint)
      ∧ (∀ v, p.current_setpoint = some v →
        (on_subscriber_message st AppTopic.controllerStatus (some p) now).1.status.current_setpoint = v))
    ∧ ((p.last_outside_temp = none →
        (on_subscriber_message st AppTopic.controllerStatus (some p) now).1.status.last_outside_temp
          = st.status.last_outside_temp)
      ∧ (∀ v, p.last_outside_temp = some v →
        (on_subscriber_message st AppTopic.controllerStatus (some p) now).1.status.last_outside_temp = v))
    ∧ (on_subscriber_message st AppTopic.controllerStatus (some p) now).1.status.timestamp_iso
        = some now := by
  have h := status_step_status st p now
  refine ⟨⟨?_, ?_⟩, ⟨?_, ?_⟩, ⟨?_, ?_⟩, ?_⟩
  · intro hnone; rw [h]; simp [hnone]
  · intro v hv; rw [h]; simp [hv]
  · intro hnone; rw [h]; simp [hnone]
  · intro v hv; rw [h]; simp [hv]
  · intro hnone; rw [h]; simp [hnone]
  · intro v hv; rw [h]; simp [hv]
  · rw [h]

/-- Witness for C10 at a concrete input: location and setpoint present in
the payload replace the previous values, the absent outside temperature is
retained, the timestamp is the receipt time. -/
theorem status_merge_frame_witness :
    (on_subscriber_message initialAppState AppTopic.controllerStatus
        (some { location := some (some "Paris"), current_setpoint := some (some 21) })
        7).1.status.location = some "Paris"
    ∧ (on_subscriber_message initialAppState AppTopic.controllerStatus
        (some { location := some (some "Paris"), current_setpoint := some (some 21) })
        7).1.status.current_setpoint = some 21
    ∧ (on_subscriber_message initialAppState AppTopic.controllerStatus
        (some { location := some (some "Paris"), current_setpoint := some (some 21) })
        7).1.status.last_outside_temp = none
    ∧ (on_subscriber_message initialAppState AppTopic.controllerStatus
        (some { location := some (some "Paris"), current_setpoint := some (some 21) })
        7).1.status.timestamp_iso = some 7 := by
  have h := status_merge_frame initialAppState
    { location := some (some "Paris"), current_setpoint := some (some 21) } 7
  exact ⟨h.1.2 (some "Paris") rfl, h.2.1.2 (some 21) rfl, h.2.2.1.1 rfl, h.2.2.2⟩

/-- Claim C9: an inbound message whose body is not valid JSON, or whose
payload lacks the required key for its topic (`"temperature"` for the
temperature topic, `"command"` for the command topic), is dropped by both
handlers: the state is unchanged and no database write or fan-out event is
emitted. -/
theorem malformed_message_dropped (st : AppState) (cst : CtrlState)
    (k : Option String) (p : JsonObj) (topicA : AppTopic) (topicC : CtrlTopic)
    (now : ℕ) (outcome : Option ℚ) :
    on_subscriber_message st topicA none now = (st, [])
    ∧ (p.temperature = none →
        on_subscriber_message st AppTopic.tempData (some p) now = (st, []))
    ∧ ctrl_on_message cst k topicC none outcome = (cst, [])
    ∧ (p.command.getD none = none →
        ctrl_on_message cst k CtrlTopic.command (some p) outcome = (cst, []))
    ∧ (p.temperature = none →
        ctrl_on_message cst k CtrlTopic.temperature (some p) outcome = (cst, [])) := by
  refine ⟨rfl, ?_, ?_, ?_, ?_⟩
  · intro h; simp [on_subscriber_message, h]
  · cases topicC <;> rfl
  · intro h; simp [ctrl_on_message, h]
  · intro h; simp [ctrl_on_message, h]

/-- Witness for C9 at concrete inputs: an unparsable body and an empty JSON
object are both dropped by both processes. -/
theorem malformed_message_dropped_witness :
    on_subscriber_message initialAppState AppTopic.tempData none 0
      = (initialAppState, [])
    ∧ on_subscriber_message initialAppState AppTopic.tempData (some {}) 0
      = (initialAppState, [])
    ∧ ctrl_on_message initialCtrlState (some "KEY") CtrlTopic.temperature none none
      = (initialCtrlState, [])
    ∧ ctrl_on_message initialCtrlState (some "KEY") CtrlTopic.command (some {}) none
      = (initialCtrlState, [])
    ∧ ctrl_on_message initialCtrlState (some "KEY") CtrlTopic.temperature (some {}) none
      = (initialCtrlState, []) := by
  have h := malformed_message_dropped initialAppState initialCtrlState (some "KEY")
    {} AppTopic.tempData CtrlTopic.temperature 0 none
  exact ⟨h.1, h.2.1 rfl, h.2.2.1, h.2.2.2.1 rfl, h.2.2.2.2 rfl⟩

theorem string_data_append (a b : String) : (a ++ b).data = a.data ++ b.data := rfl

theorem get_daily_db_name_inj {d1 d2 : String}
    (h : get_daily_db_name d1 = get_daily_db_name d2) : d1 = d2 := by
  have h1 := congrArg String.data h
  simp only [get_daily_db_name, string_data_append, List.append_assoc] at h1
  have h2 := List.append_cancel_left h1
  have h3 := List.append_cancel_left h2
  have h4 := List.append_cancel_left h3
  have h5 := List.append_cancel_left h4
  have h6 := List.append_cancel_right h5
  exact String.ext h6

/-- Counterexample to claim C6.  The controller-side append
(`log_to_database`, src/controller/controller.py lines 165-178) writes every
record into the fixed file `database/temperature_log.db`, which is not the
partition computed from the current date: at date 2025-01-01 the computed
daily partition differs from the file this append targets. -/
theorem controller_fixed_db_counterexample :
    log_to_database (some 19) (some "HEATER ON") 20 (some 7) "London"
      = CtrlEff.dbInsert DB_NAME (some 19) (some "HEATER ON") 20 (some 7) "London"
    ∧ DB_NAME ≠ get_daily_db_name "2025-01-01" := by
  refine ⟨rfl, ?_⟩
  decide

/-- Claim C6, amended to the code: the dashboard-side append
(`log_data_to_db`) always lands the record in the partition computed from
the date current at the moment of the call, updates the cached name to that
partition, and two appends at different dates land in different partitions;
the controller-side append, in contrast, targets one fixed undated file. -/
theorem daily_partition_routing (current1 current2 today1 today2 : String)
    (now1 now2 : ℕ) (src1 src2 : String) (p1 p2 : LogPayload)
    (hne : today1 ≠ today2) :
    (log_data_to_db current1 today1 now1 src1 p1).2.1 = get_daily_db_name today1
    ∧ (log_data_to_db current1 today1 now1 src1 p1).1 = get_daily_db_name today1
    ∧ (log_data_to_db current1 today1 now1 src1 p1).2.1
        ≠ (log_data_to_db current2 today2 now2 src2 p2).2.1 := by
  have key : ∀ (c t : String) (n : ℕ) (s : String) (p : LogPayload),
      (log_data_to_db c t n s p).2.1 = get_daily_db_name t
      ∧ (log_data_to_db c t n s p).1 = get_daily_db_name t := by
    intro c t n s p
    simp only [log_data_to_db]
    constructor <;> split_ifs with h <;> simp_all
  refine ⟨(key current1 today1 now1 src1 p1).1,
    (key current1 today1 now1 src1 p1).2, ?_⟩
  rw [(key current1 today1 now1 src1 p1).1, (key current2 today2 now2 src2 p2).1]
  intro hcontra
  exact hne (get_daily_db_name_inj hcontra)

/-- Witness for the amended C6 at concrete inputs: an append on 2025-01-01
lands in that day's partition, and an append on 2025-01-02 lands elsewhere. -/
theorem daily_partition_routing_witness :
    (log_data_to_db "stale.db" "2025-01-01" 0 "sensor_update" {}).2.1
      = get_daily_db_name "2025-01-01"
    ∧ (log_data_to_db "stale.db" "2025-01-01" 0 "sensor_update" {}).2.1
      ≠ (log_data_to_db "stale.db" "2025-01-02" 1 "sensor_update" {}).2.1 := by
  have h := daily_partition_routing "stale.db" "stale.db" "2025-01-01" "2025-01-02"
    0 1 "sensor_update" "sensor_update" {} {} (by decide)
  exact ⟨h.1, h.2.2⟩

end SmartHeat
